import Mathlib

/-!
Shallow embedding of the AI-provider core of this repository
(`app/providers/base.py` and `app/providers/anthropic.py`): the
request/response data model, the cache-eligibility gate, the
cache-aware dispatcher, the retry-with-backoff executor, the tool
registry, message formatting and generation-parameter resolution.
Python dictionaries are modelled as association lists, Python `None`
and optional values as `Option`, Python floats as `Rat`, and raised
exceptions as `Except` with an explicit error inductive mirroring the
exception classes the code distinguishes.
-/

set_option autoImplicit false

namespace AINativeProviders

/-- A Python value as it occurs in the open parameter maps of the code
(`additional_params`, tool inputs, tool results). -/
inductive PyVal where
  | none
  | int (n : Int)
  | rat (q : Rat)
  | str (s : String)
  | bool (b : Bool)
  deriving DecidableEq

/-- Python truthiness for the values of `PyVal`: `None`, `0`, `0.0`,
`""` and `False` are falsy, everything else is truthy. -/
def pyTruthy : PyVal → Bool
  | PyVal.none => false
  | PyVal.int n => n != 0
  | PyVal.rat q => q != 0
  | PyVal.str s => s != ""
  | PyVal.bool b => b

/-- Python `a or b` on values: `a` when truthy, else `b`. -/
def pyOr (a b : PyVal) : PyVal :=
  if pyTruthy a then a else b

/-- A parameter dictionary (`Dict[str, Any]`), as an association list
with unique keys; lookup returns the first binding. -/
abbrev Params := List (String × PyVal)

/-- Dictionary lookup (`d[k]` / `d.get(k)` without the default). -/
def lookupParam (ps : Params) (k : String) : Option PyVal :=
  (ps.find? (fun p => p.1 = k)).map (fun p => p.2)

/-- Python `k in d` key membership. -/
def containsKey (ps : Params) (k : String) : Bool :=
  ps.any (fun p => p.1 = k)

/-- Python dict upsert `d[k] = v`: replaces the binding in place if the
key exists (insertion order is preserved), otherwise appends. -/
def dictInsert (ps : Params) (k : String) (v : PyVal) : Params :=
  if containsKey ps k then
    ps.map (fun p => if p.1 = k then (k, v) else p)
  else
    ps ++ [(k, v)]

/-- Python `{**d, **kw}` dict merge: every binding of `kw` upserted
into `d` in order. -/
def dictMerge (ps kw : Params) : Params :=
  kw.foldl (fun acc p => dictInsert acc p.1 p.2) ps

/-- One chat message, a `Dict[str, str]` of which the code only reads
the keys `role` and `content`; either may be absent. -/
structure Msg where
  role : Option String
  content : Option String
  deriving DecidableEq

/-- `msg.get("role", "user")` as used by `_format_messages`. -/
def Msg.roleGet (m : Msg) : String := m.role.getD "user"

/-- `msg.get("content", "")` as used by the formatting code. -/
def Msg.contentGet (m : Msg) : String := m.content.getD ""

/-- `AIRequestBase` from `app/schemas/ai.py`: optional prompt, optional
message list, a capability tag, optional sampling temperature, optional
max-token bound and an open additional-parameter map. -/
structure AIRequestBase where
  prompt : Option String
  messages : Option (List Msg)
  capability : String
  temperature : Option Rat
  max_tokens : Option Int
  additional_params : Option Params
  deriving DecidableEq

/-- `AIResponse` from `app/schemas/ai.py` restricted to the fields the
claims are about: content, identifiers, the three top-level token
counters, the `usage` map counters, finish reason and the cached flag.
(The UUID `model_id` and the creation timestamp carry no verified
behavior and are omitted.) -/
structure AIResponse where
  content : String
  model_name : String
  provider : String
  usage_prompt_tokens : Nat
  usage_completion_tokens : Nat
  usage_total_tokens : Nat
  finish_reason : String
  total_tokens : Nat
  prompt_tokens : Nat
  completion_tokens : Nat
  is_cached : Bool
  deriving DecidableEq

/-- The provider `config` dictionary restricted to the keys the code
reads: `max_retries`, `retry_delay`, `max_tokens`, `temperature` and
`disable_caching`; an `Option.none` field models an absent key. -/
structure ProviderConfig where
  max_retries : Nat
  retry_delay : Rat
  max_tokens : Option Int
  temperature : Option Rat
  disable_caching : Bool
  deriving DecidableEq

/-- The first guard of `_is_cacheable`: Python
`request.temperature and request.temperature > 0` — the temperature is
truthy (present and nonzero) and positive. -/
def temperatureBlocksCaching : Option Rat → Bool
  | Option.none => false
  | some t => (t != 0) && decide (0 < t)

/-- The second guard of `_is_cacheable`: Python
`request.additional_params and any(k in request.additional_params for k
in ["stream", "user", "request_id"])` — the map is truthy (present and
non-empty) and holds one of the three keys. -/
def paramsBlockCaching : Option Params → Bool
  | Option.none => false
  | some ps =>
      (!ps.isEmpty) &&
        (containsKey ps "stream" || containsKey ps "user" ||
          containsKey ps "request_id")

/-- `BaseAIProvider._is_cacheable` (`app/providers/base.py`): a request
is cacheable unless its temperature is positive, it carries one of the
non-repeatable parameter keys, or the provider config disables
caching. -/
def isCacheable (cfg : ProviderConfig) (req : AIRequestBase) : Bool :=
  if temperatureBlocksCaching req.temperature then false
  else if paramsBlockCaching req.additional_params then false
  else if cfg.disable_caching then false
  else true

/-- The exception classes `anthropic.py` distinguishes: the three
transient SDK errors (`RateLimitError`, `APITimeoutError`,
`APIConnectionError`), a generic `APIStatusError` with an HTTP status,
Python `ValueError` and a generic `Exception`. -/
inductive ApiError where
  | rateLimit (msg : String)
  | timeout (msg : String)
  | connection (msg : String)
  | status (code : Nat) (msg : String)
  | valueError (msg : String)
  | runtime (msg : String)
  deriving DecidableEq

/-- The message text carried by an exception (`str(e)` / `e.message`). -/
def ApiError.message : ApiError → String
  | ApiError.rateLimit m => m
  | ApiError.timeout m => m
  | ApiError.connection m => m
  | ApiError.status _ m => m
  | ApiError.valueError m => m
  | ApiError.runtime m => m

/-- The three exception classes `_retry_with_backoff` catches and
retries; every other class falls into its final `except Exception`
clause and is re-raised at once. -/
def isRetryable : ApiError → Bool
  | ApiError.rateLimit _ => true
  | ApiError.timeout _ => true
  | ApiError.connection _ => true
  | _ => false

/-- Membership in the `APIStatusError` class of the Anthropic SDK:
`RateLimitError` is a subclass of `APIStatusError` (HTTP 429), while
`APITimeoutError` and `APIConnectionError` descend from `APIError`
outside the status hierarchy; `ValueError` and plain `Exception` are
unrelated. This drives the `except APIStatusError` clause of
`_create_message_with_tools`. -/
def isAPIStatusError : ApiError → Bool
  | ApiError.rateLimit _ => true
  | ApiError.status _ _ => true
  | _ => false

/-- Outcome of the retry loop of `_retry_with_backoff`: a returned
value, a raised exception, or the degenerate `raise last_exception`
with `last_exception = None` when the loop body never ran
(`max_retries = 0`). -/
inductive RetryOutcome (α : Type) where
  | ok (a : α)
  | err (e : ApiError)
  | noAttempt
  deriving DecidableEq

/-- The loop of `_retry_with_backoff`: `rem` attempts remain, `attempt`
is the current 0-based attempt index, `last` the stored
`last_exception`. The operation `op` is indexed by the attempt on which
it is invoked. Returns the outcome together with the number of times
the operation was invoked. A retryable error on a non-final attempt
waits `retry_delay * 2 ^ attempt` (a pure suspension, no functional
effect) and continues; a non-retryable error is re-raised at once. -/
def retryGo {α : Type} (op : Nat → Except ApiError α) :
    Nat → Nat → Option ApiError → RetryOutcome α × Nat
  | 0, _, last =>
      (match last with
        | some e => RetryOutcome.err e
        | Option.none => RetryOutcome.noAttempt,
       0)
  | rem + 1, attempt, _ =>
      match op attempt with
      | Except.ok a => (RetryOutcome.ok a, 1)
      | Except.error e =>
          if isRetryable e then
            let r := retryGo op rem (attempt + 1) (some e)
            (r.1, r.2 + 1)
          else
            (RetryOutcome.err e, 1)

/-- `AnthropicProvider._retry_with_backoff`
(`app/providers/anthropic.py`): run `op` up to `max_retries` times,
retrying only rate-limit, timeout and connection errors, re-raising the
last transient error when attempts are exhausted. -/
def retryWithBackoff {α : Type} (op : Nat → Except ApiError α)
    (maxRetries : Nat) : RetryOutcome α × Nat :=
  retryGo op maxRetries 0 Option.none

/-- A provider-facing message (`{"role": ..., "content": ...}`); the
content slot can hold Python `None` when it is synthesized from an
absent prompt. -/
structure FMsg where
  role : String
  content : Option String
  deriving DecidableEq

/-- One block of a remote reply's `content` list: a `TextBlock`, some
other block that still exposes a `text` attribute, or a block without
one (e.g. `ToolUseBlock`). -/
inductive ContentBlock where
  | textBlock (text : String)
  | otherWithText (text : String)
  | other
  deriving DecidableEq

/-- `_extract_text_content`: concatenate the `text` of every block that
is a `TextBlock` or has a `text` attribute. -/
def extractTextContent (blocks : List ContentBlock) : String :=
  String.join (blocks.filterMap (fun b =>
    match b with
    | ContentBlock.textBlock t => some t
    | ContentBlock.otherWithText t => some t
    | ContentBlock.other => Option.none))

/-- The remote `Message` reply: content blocks, the two usage counters
and an optional stop reason. -/
structure RemoteMessage where
  content : List ContentBlock
  input_tokens : Nat
  output_tokens : Nat
  stop_reason : Option String
  deriving DecidableEq

/-- The `request_params` dictionary assembled by
`_create_message_with_tools` and handed to the remote call. -/
structure MessageRequestParams where
  model : String
  max_tokens : PyVal
  messages : List FMsg
  temperature : Option PyVal
  system : Option String
  tools : Option (List Params)
  thinking : Option PyVal
  deriving DecidableEq

/-- `self.config.get("max_tokens", 4096)`. -/
def cfgMaxTokensGet (cfg : ProviderConfig) : PyVal :=
  match cfg.max_tokens with
  | some n => PyVal.int n
  | Option.none => PyVal.int 4096

/-- The temperature entry of `request_params`: the argument when it is
not `None`, else the config value when that key exists, else absent. -/
def paramsTemperature (cfg : ProviderConfig) (t : PyVal) : Option PyVal :=
  if t = PyVal.none then cfg.temperature.map (fun q => PyVal.rat q)
  else some t

/-- The dictionary construction of `_create_message_with_tools`:
`model or self.model_id`, `max_tokens or config.get("max_tokens",
4096)`, then `temperature` / `system` / `tools` / `thinking` added only
when non-`None` (for `system`, `tools` and `thinking`: truthy). -/
def buildMessageParams (modelId : String) (cfg : ProviderConfig)
    (messages : List FMsg) (model : Option String) (max_tokens : PyVal)
    (temperature : PyVal) (system : Option String)
    (tools : Option (List Params)) (thinking : PyVal) :
    MessageRequestParams :=
  { model := (model.filter (fun s => s ≠ "")).getD modelId
    max_tokens := pyOr max_tokens (cfgMaxTokensGet cfg)
    messages := messages
    temperature := paramsTemperature cfg temperature
    system := system.filter (fun s => s ≠ "")
    tools := tools.filter (fun ts => !ts.isEmpty)
    thinking := if pyTruthy thinking then some thinking else Option.none }

/-- `AnthropicProvider._create_message_with_tools`: fail fast with a
`ValueError` when no API key is configured, otherwise run the remote
call through `_retry_with_backoff` on the assembled parameters;
`APIStatusError` escaping the retry loop is re-raised as a `ValueError`
and any other exception as a generic `Exception` wrapper. -/
def createMessageWithTools (apiKey : Option String) (modelId : String)
    (cfg : ProviderConfig)
    (remote : MessageRequestParams → Nat → Except ApiError RemoteMessage)
    (messages : List FMsg) (model : Option String) (max_tokens : PyVal)
    (temperature : PyVal) (system : Option String)
    (tools : Option (List Params)) (thinking : PyVal) :
    Except ApiError RemoteMessage :=
  if (apiKey.filter (fun s => s ≠ "")).isNone then
    Except.error (ApiError.valueError
      "API key not provided. Please set ANTHROPIC_API_KEY environment variable.")
  else
    let ps := buildMessageParams modelId cfg messages model max_tokens
      temperature system tools thinking
    match retryWithBackoff (remote ps) cfg.max_retries with
    | (RetryOutcome.ok m, _) => Except.ok m
    | (RetryOutcome.err e, _) =>
        if isAPIStatusError e then
          Except.error (ApiError.valueError
            ("Anthropic API error: " ++ e.message))
        else
          Except.error (ApiError.runtime
            ("Failed to call Anthropic API: " ++ e.message))
    | (RetryOutcome.noAttempt, _) =>
        Except.error (ApiError.runtime
          ("Failed to call Anthropic API: " ++
            "exceptions must derive from BaseException"))

/-- `request.additional_params.get(k) if request.additional_params
else None`, as written at the top of both generation impls: `None` when
the map is absent or falsy (empty), else the dictionary `.get` with
default `None`. -/
def reqParamGet (req : AIRequestBase) (k : String) : PyVal :=
  match req.additional_params with
  | Option.none => PyVal.none
  | some ps =>
      if ps.isEmpty then PyVal.none
      else (lookupParam ps k).getD PyVal.none

/-- `max_tokens = max_tokens or self.config.get("max_tokens", 4096)`
applied to the per-request value, as in both generation impls. -/
def resolvedMaxTokens (cfg : ProviderConfig) (req : AIRequestBase) :
    PyVal :=
  pyOr (reqParamGet req "max_tokens") (cfgMaxTokensGet cfg)

/-- `temperature = temperature if temperature is not None else
self.config.get("temperature", 0.7)` applied to the per-request value,
as in both generation impls. -/
def resolvedTemperature (cfg : ProviderConfig) (req : AIRequestBase) :
    PyVal :=
  if reqParamGet req "temperature" = PyVal.none then
    match cfg.temperature with
    | some q => PyVal.rat q
    | Option.none => PyVal.rat (7 / 10)
  else reqParamGet req "temperature"

/-- The `thinking` extraction of both generation impls: the value under
`"thinking"` when the map is truthy and holds that key, else `None`. -/
def resolvedThinking (req : AIRequestBase) : PyVal :=
  match req.additional_params with
  | Option.none => PyVal.none
  | some ps =>
      if !ps.isEmpty && containsKey ps "thinking" then
        (lookupParam ps "thinking").getD PyVal.none
      else PyVal.none

/-- The per-message body of the loop in `_format_messages`: a message
whose role (default `"user"`) is `system` is skipped; `human` and
`user` normalize to `user`, `assistant` stays `assistant`, any other
role passes through; the content (default `""`) is kept unchanged. -/
def formatMsg (m : Msg) : Option FMsg :=
  let role := m.roleGet
  if role = "system" then Option.none
  else
    let role' :=
      if role = "human" ∨ role = "user" then "user"
      else if role = "assistant" then "assistant"
      else role
    some { role := role', content := some m.contentGet }

/-- `AnthropicProvider._format_messages`: when the request's message
list is truthy (present and non-empty) map each message through the
loop body, else synthesize a single user message from the bare
prompt. -/
def formatMessages (req : AIRequestBase) : List FMsg :=
  match req.messages with
  | some msgs =>
      if msgs.isEmpty then [{ role := "user", content := req.prompt }]
      else msgs.filterMap formatMsg
  | Option.none => [{ role := "user", content := req.prompt }]

/-- `AnthropicProvider._extract_system_message`: `None` when the
message list is falsy, else the content (default `""`) of the first
message whose `role` key equals `"system"`. -/
def extractSystemMessage (req : AIRequestBase) : Option String :=
  match req.messages with
  | Option.none => Option.none
  | some msgs =>
      if msgs.isEmpty then Option.none
      else (msgs.find? (fun m => m.role = some "system")).map
        Msg.contentGet

/-- `response.stop_reason or "stop"`: falsy (absent or empty) stop
reasons become `"stop"`. -/
def stopReasonOr (r : Option String) : String :=
  match r with
  | some s => if s = "" then "stop" else s
  | Option.none => "stop"

/-- The `AIResponse(...)` construction shared verbatim by
`_generate_completion_impl` and `_generate_chat_completion_impl`: the
text content is extracted from the blocks, the usage total is
recomputed as `input_tokens + output_tokens` and written to both the
`usage` map and the top-level counters. -/
def mkAIResponse (modelId : String) (m : RemoteMessage) : AIResponse :=
  let total := m.input_tokens + m.output_tokens
  { content := extractTextContent m.content
    model_name := modelId
    provider := "anthropic"
    usage_prompt_tokens := m.input_tokens
    usage_completion_tokens := m.output_tokens
    usage_total_tokens := total
    finish_reason := stopReasonOr m.stop_reason
    total_tokens := total
    prompt_tokens := m.input_tokens
    completion_tokens := m.output_tokens
    is_cached := false }

/-- `AnthropicProvider._generate_completion_impl`: wrap the bare prompt
as one user message, resolve `max_tokens` / `temperature` / `thinking`,
call the Messages API through `_create_message_with_tools` (no system
prompt, no tools) and build the `AIResponse`. -/
def generateCompletionImpl (apiKey : Option String) (modelId : String)
    (cfg : ProviderConfig)
    (remote : MessageRequestParams → Nat → Except ApiError RemoteMessage)
    (req : AIRequestBase) : Except ApiError AIResponse :=
  match createMessageWithTools apiKey modelId cfg remote
      [{ role := "user", content := req.prompt }] Option.none
      (resolvedMaxTokens cfg req) (resolvedTemperature cfg req)
      Option.none Option.none (resolvedThinking req) with
  | Except.error e => Except.error e
  | Except.ok m => Except.ok (mkAIResponse modelId m)

/-- `AnthropicProvider._generate_chat_completion_impl`: format the
messages, extract the system prompt, resolve `max_tokens` /
`temperature` / `thinking`, call the Messages API and build the
`AIResponse` the same way as the completion impl. -/
def generateChatCompletionImpl (apiKey : Option String)
    (modelId : String) (cfg : ProviderConfig)
    (remote : MessageRequestParams → Nat → Except ApiError RemoteMessage)
    (req : AIRequestBase) : Except ApiError AIResponse :=
  match createMessageWithTools apiKey modelId cfg remote
      (formatMessages req) Option.none
      (resolvedMaxTokens cfg req) (resolvedTemperature cfg req)
      (extractSystemMessage req) Option.none (resolvedThinking req) with
  | Except.error e => Except.error e
  | Except.ok m => Except.ok (mkAIResponse modelId m)

/-- The cache collaborator of `BaseAIProvider`: `get_cached_response`
and `cache_response`, both suspension points that may raise; the cache
owns a state of type `σ` so that persistence between dispatcher calls
can be expressed. -/
structure CacheService (σ : Type) where
  getCached : σ → AIRequestBase → String → Except ApiError (Option AIResponse)
  cacheResp : σ → AIRequestBase → AIResponse → String → Except ApiError σ

/-- The tail of both dispatcher methods of `BaseAIProvider`: invoke the
capability-specific impl, then (when a cache is attached and the
request is cacheable) store the fresh response before returning it.
Returns the result paired with the number of impl invocations. Note the
code has no exception handling: an error raised by `cache_response`
propagates. -/
def dispatchAfterMiss {σ : Type} (cache : Option (CacheService σ))
    (cfg : ProviderConfig) (providerName : String)
    (impl : AIRequestBase → Except ApiError AIResponse) (st : σ)
    (req : AIRequestBase) : Except ApiError (AIResponse × σ) × Nat :=
  match impl req with
  | Except.error e => (Except.error e, 1)
  | Except.ok resp =>
      match cache with
      | some cs =>
          if isCacheable cfg req then
            match cs.cacheResp st req resp providerName with
            | Except.error e => (Except.error e, 1)
            | Except.ok st' => (Except.ok (resp, st'), 1)
          else (Except.ok (resp, st), 1)
      | Option.none => (Except.ok (resp, st), 1)

/-- `BaseAIProvider.generate_completion` (`app/providers/base.py`):
when a cache is attached and the request is cacheable, consult
`get_cached_response`; on a hit set `is_cached = True` on the cached
response and return it without invoking the impl; otherwise generate,
store when cacheable, and return the fresh response. The cache reads
and writes are not guarded by any exception handler. -/
def generate_completion {σ : Type} (cache : Option (CacheService σ))
    (cfg : ProviderConfig) (providerName : String)
    (impl : AIRequestBase → Except ApiError AIResponse) (st : σ)
    (req : AIRequestBase) : Except ApiError (AIResponse × σ) × Nat :=
  match cache with
  | some cs =>
      if isCacheable cfg req then
        match cs.getCached st req providerName with
        | Except.error e => (Except.error e, 0)
        | Except.ok (some cached) =>
            (Except.ok ({ cached with is_cached := true }, st), 0)
        | Except.ok Option.none =>
            dispatchAfterMiss cache cfg providerName impl st req
      else dispatchAfterMiss cache cfg providerName impl st req
  | Option.none => dispatchAfterMiss cache cfg providerName impl st req

/-- `BaseAIProvider.generate_chat_completion`: the same orchestration
as `generate_completion`, wrapping the chat impl. -/
def generate_chat_completion {σ : Type} (cache : Option (CacheService σ))
    (cfg : ProviderConfig) (providerName : String)
    (impl : AIRequestBase → Except ApiError AIResponse) (st : σ)
    (req : AIRequestBase) : Except ApiError (AIResponse × σ) × Nat :=
  match cache with
  | some cs =>
      if isCacheable cfg req then
        match cs.getCached st req providerName with
        | Except.error e => (Except.error e, 0)
        | Except.ok (some cached) =>
            (Except.ok ({ cached with is_cached := true }, st), 0)
        | Except.ok Option.none =>
            dispatchAfterMiss cache cfg providerName impl st req
      else dispatchAfterMiss cache cfg providerName impl st req
  | Option.none => dispatchAfterMiss cache cfg providerName impl st req

/-- A store for the persistent cache collaborator used to state the
round-trip property: entries keyed by the request and the provider
name. -/
abbrev Store := List (AIRequestBase × String × AIResponse)

/-- A cache collaborator that never raises and persists every stored
response, returning the most recently stored entry for a key. -/
def persistentCache : CacheService Store :=
  { getCached := fun st req p =>
      Except.ok ((st.find? (fun e =>
        decide (e.1 = req) && decide (e.2.1 = p))).map (fun e => e.2.2))
    cacheResp := fun st req resp p => Except.ok ((req, p, resp) :: st) }

/-- A tool handler: invoked with the keyword-argument dictionary, it
returns a value or raises (modelled as `Except` carrying the error
message `str(e)`). -/
abbrev ToolHandler := Params → Except String PyVal

/-- The tool state of `AnthropicProvider`: the `self.tools` definition
list and the `self.tool_handlers` name-to-handler dictionary. -/
structure ToolState where
  tools : List Params
  handlers : List (String × ToolHandler)

/-- The empty registry created in `__init__`. -/
def ToolState.empty : ToolState := { tools := [], handlers := [] }

/-- Handler-dictionary upsert (`self.tool_handlers[name] = handler`):
overwrite in place when the name exists, else append, preserving
insertion order. -/
def handlersInsert (hs : List (String × ToolHandler)) (name : String)
    (h : ToolHandler) : List (String × ToolHandler) :=
  if hs.any (fun p => p.1 = name) then
    hs.map (fun p => if p.1 = name then (name, h) else p)
  else hs ++ [(name, h)]

/-- `AnthropicProvider.register_tool`: append the definition to
`self.tools` and bind the handler under the definition's `"name"` key
(absent name key raises in Python; the embedding takes the name
directly, as every call site passes a definition carrying it). -/
def register_tool (st : ToolState) (toolDef : Params) (name : String)
    (h : ToolHandler) : ToolState :=
  { tools := st.tools ++ [toolDef]
    handlers := handlersInsert st.handlers name h }

/-- The result dictionary of `_execute_tool`: the not-found shape
`{"error": ..., "available_tools": [...]}`, the failure shape
`{"error": str(e), "success": False}`, or the success shape
`{"success": True, "result": result}`. -/
inductive ToolResult where
  | notFound (msg : String) (available : List String)
  | failure (msg : String)
  | success (result : PyVal)
  deriving DecidableEq

/-- `AnthropicProvider._execute_tool`: a total function — an
unregistered name yields the not-found result listing
`self.tool_handlers.keys()`, a handler exception is caught and becomes
the failure result with the error's message, and a handler return
value is wrapped verbatim in the success result. -/
def execute_tool (st : ToolState) (name : String) (input : Params) :
    ToolResult :=
  match (st.handlers.find? (fun p => p.1 = name)).map (fun p => p.2) with
  | Option.none =>
      ToolResult.notFound ("Tool " ++ name ++ " not found")
        (st.handlers.map (fun p => p.1))
  | some h =>
      match h input with
      | Except.ok r => ToolResult.success r
      | Except.error m => ToolResult.failure m

/-- `ModelCapabilityType.COMPLETION` as the capability tag used by
`generate`. -/
def completionCapability : String := "completion"

/-- The literal dictionary `max_tokens or 2048` plus `temperature`
built by `generate` before the keyword arguments are spread over
it. -/
def generateBaseParams (max_tokens : Option Int) (temperature : Rat) :
    Params :=
  [("max_tokens",
     pyOr (match max_tokens with
           | some n => PyVal.int n
           | Option.none => PyVal.none) (PyVal.int 2048)),
   ("temperature", PyVal.rat temperature)]

/-- `AnthropicProvider.generate`: the request object it constructs —
bare prompt, completion capability, no top-level temperature or
max-token field, and an additional-parameter map holding
`max_tokens or 2048`, the `temperature` argument, and the remaining
keyword arguments merged over them. -/
def generateRequest (prompt : String) (max_tokens : Option Int)
    (temperature : Rat) (kwargs : Params) : AIRequestBase :=
  { prompt := some prompt
    messages := Option.none
    capability := completionCapability
    temperature := Option.none
    max_tokens := Option.none
    additional_params := some
      (dictMerge (generateBaseParams max_tokens temperature) kwargs) }

/-- The role normalization applied to non-system messages by
`_format_messages`: `human` and `user` become `user`, `assistant`
stays, anything else passes through. -/
def normalizeRole (r : String) : String :=
  if r = "human" ∨ r = "user" then "user"
  else if r = "assistant" then "assistant"
  else r

/-- A message is tagged `system` when its role key (default `"user"`)
is `"system"`. -/
def isSystemTagged (m : Msg) : Bool := m.roleGet = "system"

/-- A small concrete configuration: three retries, unit delay, no
config defaults, caching enabled. -/
def cfg0 : ProviderConfig := ⟨3, 1, Option.none, Option.none, false⟩

/-- A deterministic (cacheable) concrete request. -/
def req0 : AIRequestBase :=
  ⟨some "hello", Option.none, "completion", some 0, Option.none,
    Option.none⟩

/-- A concrete freshly generated response. -/
def resp0 : AIResponse :=
  ⟨"generated", "claude-sonnet-4-5", "anthropic", 3, 4, 7, "end_turn",
    7, 3, 4, false⟩

/-- A concrete remote reply. -/
def msg0 : RemoteMessage :=
  ⟨[ContentBlock.textBlock "hi"], 3, 4, some "end_turn"⟩

/-- A cache collaborator whose read always raises. -/
def failingReadCache : CacheService Unit :=
  { getCached := fun _ _ _ =>
      Except.error (ApiError.runtime "cache read failed")
    cacheResp := fun st _ _ _ => Except.ok st }

/-- A cache collaborator whose read misses and whose write always
raises. -/
def failingWriteCache : CacheService Unit :=
  { getCached := fun _ _ _ => Except.ok Option.none
    cacheResp := fun _ _ _ _ =>
      Except.error (ApiError.runtime "cache write failed") }

/-- The calculator handler of the spec example: add the integer
arguments `a` and `b`. -/
def calculatorHandler : ToolHandler := fun input =>
  match lookupParam input "a", lookupParam input "b" with
  | some (PyVal.int a), some (PyVal.int b) => Except.ok (PyVal.int (a + b))
  | _, _ => Except.error "missing argument"

/-- The registry of the spec example: the calculator registered on an
empty registry. -/
def calculatorRegistry : ToolState :=
  register_tool ToolState.empty [("name", PyVal.str "calculator")]
    "calculator" calculatorHandler

/-- A request whose additional parameters carry an explicit
`max_tokens` of `0`. -/
def reqMaxTokensZero : AIRequestBase :=
  ⟨some "p", Option.none, "completion", Option.none, Option.none,
    some [("max_tokens", PyVal.int 0)]⟩

/-- The message list of the spec formatting example. -/
def exChatMsgs : List Msg :=
  [⟨some "system", some "S"⟩, ⟨some "user", some "A"⟩,
    ⟨some "assistant", some "B"⟩]

/-- The chat request of the spec formatting example. -/
def exChatReq : AIRequestBase :=
  ⟨Option.none, some exChatMsgs, "chat_completion", Option.none,
    Option.none, Option.none⟩

/-- A request carrying explicit (truthy) per-request generation
parameters. -/
def reqExplicitParams : AIRequestBase :=
  ⟨some "p", Option.none, "completion", Option.none, Option.none,
    some [("max_tokens", PyVal.int 100), ("temperature", PyVal.rat 0)]⟩

section Lemmas

lemma temperatureBlocksCaching_eq_false_iff (o : Option Rat) :
    temperatureBlocksCaching o = false ↔ ∀ t, o = some t → t ≤ 0 := by
  cases o with
  | none => simp [temperatureBlocksCaching]
  | some t =>
      simp only [temperatureBlocksCaching, Bool.and_eq_false_iff,
        Option.some.injEq]
      constructor
      · rintro (h | h) t' rfl
        · simp only [bne_eq_false_iff_eq] at h
          simp [h]
        · simp only [decide_eq_false_iff_not, not_lt] at h
          exact h
      · intro h
        rcases le_or_lt t 0 with h' | h'
        · right
          simpa [not_lt] using h'
        · exact absurd (h t rfl) (not_le.mpr h')

lemma containsKey_nil (k : String) : containsKey [] k = false := rfl

lemma paramsBlockCaching_eq_false_iff (o : Option Params) :
    paramsBlockCaching o = false ↔
      ∀ ps, o = some ps → containsKey ps "stream" = false ∧
        containsKey ps "user" = false ∧
        containsKey ps "request_id" = false := by
  cases o with
  | none => simp [paramsBlockCaching]
  | some ps =>
      cases ps with
      | nil => simp [paramsBlockCaching, containsKey]
      | cons p ps' =>
          rcases hs : containsKey (p :: ps') "stream" <;>
            rcases hu : containsKey (p :: ps') "user" <;>
            rcases hr : containsKey (p :: ps') "request_id" <;>
            simp_all [paramsBlockCaching]

lemma isCacheable_eq_true_iff (cfg : ProviderConfig)
    (req : AIRequestBase) :
    isCacheable cfg req = true ↔
      temperatureBlocksCaching req.temperature = false ∧
        paramsBlockCaching req.additional_params = false ∧
        cfg.disable_caching = false := by
  unfold isCacheable
  rcases h1 : temperatureBlocksCaching req.temperature <;>
    rcases h2 : paramsBlockCaching req.additional_params <;>
    rcases h3 : cfg.disable_caching <;> simp

end Lemmas

/-- C4: `_is_cacheable` returns true exactly when the temperature is
absent or at most zero, the additional-parameter map holds none of the
keys `stream`, `user`, `request_id`, and the provider configuration
does not disable caching; in particular a positive temperature or any
of the three keys forces false. -/
theorem is_cacheable_characterization (cfg : ProviderConfig)
    (req : AIRequestBase) :
    (isCacheable cfg req = true ↔
      ((∀ t, req.temperature = some t → t ≤ 0) ∧
        (∀ ps, req.additional_params = some ps →
          containsKey ps "stream" = false ∧
          containsKey ps "user" = false ∧
          containsKey ps "request_id" = false) ∧
        cfg.disable_caching = false)) ∧
    (∀ t, req.temperature = some t → 0 < t →
      isCacheable cfg req = false) ∧
    (∀ ps k, req.additional_params = some ps →
      (k = "stream" ∨ k = "user" ∨ k = "request_id") →
      containsKey ps k = true → isCacheable cfg req = false) := by
  have hiff : isCacheable cfg req = true ↔
      ((∀ t, req.temperature = some t → t ≤ 0) ∧
        (∀ ps, req.additional_params = some ps →
          containsKey ps "stream" = false ∧
          containsKey ps "user" = false ∧
          containsKey ps "request_id" = false) ∧
        cfg.disable_caching = false) := by
    rw [isCacheable_eq_true_iff,
      temperatureBlocksCaching_eq_false_iff,
      paramsBlockCaching_eq_false_iff]
  refine ⟨hiff, ?_, ?_⟩
  · intro t ht hpos
    rcases h : isCacheable cfg req with _ | _
    · rfl
    · exfalso
      have := (hiff.mp h).1 t ht
      exact absurd hpos (not_lt.mpr this)
  · intro ps k hps hk hmem
    rcases h : isCacheable cfg req with _ | _
    · rfl
    · exfalso
      have h3 := (hiff.mp h).2.1 ps hps
      rcases hk with rfl | rfl | rfl
      · rw [h3.1] at hmem; exact Bool.false_ne_true hmem
      · rw [h3.2.1] at hmem; exact Bool.false_ne_true hmem
      · rw [h3.2.2] at hmem; exact Bool.false_ne_true hmem

/-- C4 witness: concrete evaluations — the deterministic request is
cacheable, and a positive-temperature request is not. -/
theorem is_cacheable_characterization_witness :
    isCacheable cfg0 req0 = true ∧
      isCacheable cfg0
        ⟨some "p", Option.none, "completion", some 1, Option.none,
          Option.none⟩ = false :=
  ⟨(is_cacheable_characterization cfg0 req0).1.mpr (by
      refine ⟨?_, ?_, rfl⟩
      · intro t ht
        have h : (some (0 : Rat)) = some t := ht
        injection h with h'
        subst h'
        norm_num
      · intro ps hps
        have h : (Option.none : Option Params) = some ps := hps
        cases h),
    (is_cacheable_characterization cfg0
        ⟨some "p", Option.none, "completion", some 1, Option.none,
          Option.none⟩).2.1 1 rfl (by norm_num)⟩

section RetryLemmas

lemma retryGo_succeeds {α : Type} (op : Nat → Except ApiError α) :
    ∀ (n rem attempt : Nat) (last : Option ApiError) (a : α),
      n + 1 ≤ rem →
      (∀ i, i < n → ∃ e, op (attempt + i) = Except.error e ∧
        isRetryable e = true) →
      op (attempt + n) = Except.ok a →
      retryGo op rem attempt last = (RetryOutcome.ok a, n + 1) := by
  intro n
  induction n with
  | zero =>
      intro rem attempt last a hle _ hok
      match rem, hle with
      | rem' + 1, _ =>
          rw [show attempt + 0 = attempt from rfl] at hok
          simp only [retryGo, hok]
  | succ n ih =>
      intro rem attempt last a hle hfail hok
      match rem, hle with
      | rem' + 1, hle =>
          obtain ⟨e, he, hr⟩ := hfail 0 (Nat.succ_pos n)
          rw [show attempt + 0 = attempt from rfl] at he
          have heq := ih rem' (attempt + 1) (some e) a
            (by omega)
            (fun i hi => by
              have h2 := hfail (i + 1) (Nat.succ_lt_succ hi)
              rwa [show attempt + (i + 1) = attempt + 1 + i from by
                omega] at h2)
            (by rwa [show attempt + 1 + n = attempt + (n + 1) from by
              omega])
          simp only [retryGo, he, hr, if_true, heq]

lemma retryGo_exhausts {α : Type} (op : Nat → Except ApiError α)
    (errAt : Nat → ApiError) :
    ∀ (rem attempt : Nat) (last : Option ApiError),
      0 < rem →
      (∀ i, i < rem → op (attempt + i) = Except.error (errAt (attempt + i)) ∧
        isRetryable (errAt (attempt + i)) = true) →
      retryGo op rem attempt last =
        (RetryOutcome.err (errAt (attempt + rem - 1)), rem) := by
  intro rem
  induction rem with
  | zero => intro attempt last h; exact absurd h (lt_irrefl 0)
  | succ rem' ih =>
      intro attempt last _ hfail
      obtain ⟨he, hr⟩ := hfail 0 (Nat.succ_pos rem')
      rw [show attempt + 0 = attempt from rfl] at he hr
      rcases Nat.eq_zero_or_pos rem' with hz | hpos
      · subst hz
        simp only [retryGo, he, hr, if_true]
        rw [show attempt + 1 - 1 = attempt from rfl]
      · have heq := ih (attempt + 1) (some (errAt attempt)) hpos
          (fun i hi => by
            have h2 := hfail (i + 1) (Nat.succ_lt_succ hi)
            rwa [show attempt + (i + 1) = attempt + 1 + i from by
              omega] at h2)
        rw [show attempt + 1 + rem' - 1 = attempt + (rem' + 1) - 1
          from by omega] at heq
        simp only [retryGo, he, hr, if_true, heq]

lemma retryGo_nonretryable {α : Type} (op : Nat → Except ApiError α)
    (rem attempt : Nat) (last : Option ApiError) (e : ApiError)
    (hrem : 0 < rem) (he : op attempt = Except.error e)
    (hnr : isRetryable e = false) :
    retryGo op rem attempt last = (RetryOutcome.err e, 1) := by
  match rem, hrem with
  | rem' + 1, _ =>
      simp only [retryGo, he, hnr]
      rfl

end RetryLemmas

/-- C3: `_retry_with_backoff` with `max_retries >= 1` returns the first
success with the operation invoked exactly `N` times when the first
`N - 1` invocations fail with retryable errors and invocation `N`
succeeds; invokes the operation exactly `max_retries` times and
surfaces the last retryable error when every invocation fails
retryably; and re-raises a non-retryable error after exactly one
invocation. -/
theorem retry_with_backoff_spec :
    (∀ {α : Type} (op : Nat → Except ApiError α)
      (maxRetries N : Nat) (a : α),
      1 ≤ N → N ≤ maxRetries →
      (∀ i, i < N - 1 → ∃ e, op i = Except.error e ∧
        isRetryable e = true) →
      op (N - 1) = Except.ok a →
      retryWithBackoff op maxRetries = (RetryOutcome.ok a, N)) ∧
    (∀ {α : Type} (op : Nat → Except ApiError α)
      (maxRetries : Nat) (errAt : Nat → ApiError),
      1 ≤ maxRetries →
      (∀ i, i < maxRetries → op i = Except.error (errAt i) ∧
        isRetryable (errAt i) = true) →
      retryWithBackoff op maxRetries =
        (RetryOutcome.err (errAt (maxRetries - 1)), maxRetries)) ∧
    (∀ {α : Type} (op : Nat → Except ApiError α)
      (maxRetries : Nat) (e : ApiError),
      1 ≤ maxRetries →
      op 0 = Except.error e → isRetryable e = false →
      retryWithBackoff op maxRetries = (RetryOutcome.err e, 1)) := by
  refine ⟨?_, ?_, ?_⟩
  · intro α op maxRetries N a h1 h2 hfail hok
    have := retryGo_succeeds op (N - 1) maxRetries 0 Option.none a
      (by omega)
      (fun i hi => by simpa using hfail i hi)
      (by simpa using hok)
    rw [retryWithBackoff, this, Nat.sub_add_cancel h1]
  · intro α op maxRetries errAt h1 hfail
    have := retryGo_exhausts op errAt maxRetries 0 Option.none
      (by omega)
      (fun i hi => by simpa using hfail i hi)
    rw [retryWithBackoff, this]
    simp
  · intro α op maxRetries e h1 he hnr
    exact retryGo_nonretryable op maxRetries 0 Option.none e
      (by omega) he hnr

/-- C3 witness: a rate-limited first attempt followed by success
returns after two invocations; two timeouts exhaust two retries and
surface the timeout; a `ValueError` is raised after one invocation. -/
theorem retry_with_backoff_spec_witness :
    retryWithBackoff
        (fun i => if i = 0 then Except.error (ApiError.rateLimit "429")
          else Except.ok (42 : Nat)) 3 = (RetryOutcome.ok 42, 2) ∧
      retryWithBackoff
        (fun _ => (Except.error (ApiError.timeout "t") :
          Except ApiError Nat)) 2 =
        (RetryOutcome.err (ApiError.timeout "t"), 2) ∧
      retryWithBackoff
        (fun _ => (Except.error (ApiError.valueError "bad") :
          Except ApiError Nat)) 3 =
        (RetryOutcome.err (ApiError.valueError "bad"), 1) :=
  ⟨retry_with_backoff_spec.1
      (fun i => if i = 0 then Except.error (ApiError.rateLimit "429")
        else Except.ok (42 : Nat)) 3 2 42 (by norm_num) (by norm_num)
      (fun i hi => by
        interval_cases i
        exact ⟨ApiError.rateLimit "429", rfl, rfl⟩)
      rfl,
    retry_with_backoff_spec.2.1
      (fun _ => (Except.error (ApiError.timeout "t") :
        Except ApiError Nat)) 2 (fun _ => ApiError.timeout "t")
      (by norm_num) (fun i _ => ⟨rfl, rfl⟩),
    retry_with_backoff_spec.2.2
      (fun _ => (Except.error (ApiError.valueError "bad") :
        Except ApiError Nat)) 3 (ApiError.valueError "bad")
      (by norm_num) rfl rfl⟩

/-- C1 counterexample: on a cacheable request, a cache whose read
raises makes the dispatcher surface the cache error with the
generation impl never invoked (so the fresh Response is not returned),
and a cache whose write raises after generation also surfaces the
cache error instead of the fresh Response. -/
theorem dispatcher_cache_error_counterexample :
    generate_completion (some failingReadCache) cfg0 "anthropic"
        (fun _ => Except.ok resp0) () req0
      = (Except.error (ApiError.runtime "cache read failed"), 0) ∧
    (generate_completion (some failingReadCache) cfg0 "anthropic"
        (fun _ => Except.ok resp0) () req0).1
      ≠ Except.ok (resp0, ()) ∧
    generate_completion (some failingWriteCache) cfg0 "anthropic"
        (fun _ => Except.ok resp0) () req0
      = (Except.error (ApiError.runtime "cache write failed"), 1) ∧
    (generate_completion (some failingWriteCache) cfg0 "anthropic"
        (fun _ => Except.ok resp0) () req0).1
      ≠ Except.ok (resp0, ()) := by
  refine ⟨rfl, ?_, rfl, ?_⟩ <;> exact fun h => Except.noConfusion h

/-- C1 amended: the dispatcher has no handling for cache-layer errors —
on a cacheable request, a raising cache read propagates its error with
the generation impl never invoked, and a raising cache write after
generation propagates its error instead of returning the fresh
Response; identically for the chat dispatcher. -/
theorem dispatcher_propagates_cache_errors {σ : Type}
    (cs : CacheService σ) (cfg : ProviderConfig) (p : String)
    (impl : AIRequestBase → Except ApiError AIResponse) (st : σ)
    (req : AIRequestBase) (e : ApiError)
    (hc : isCacheable cfg req = true) :
    (cs.getCached st req p = Except.error e →
      generate_completion (some cs) cfg p impl st req
        = (Except.error e, 0) ∧
      generate_chat_completion (some cs) cfg p impl st req
        = (Except.error e, 0)) ∧
    (∀ resp, cs.getCached st req p = Except.ok Option.none →
      impl req = Except.ok resp →
      cs.cacheResp st req resp p = Except.error e →
      generate_completion (some cs) cfg p impl st req
        = (Except.error e, 1) ∧
      generate_chat_completion (some cs) cfg p impl st req
        = (Except.error e, 1)) := by
  constructor
  · intro hg
    constructor <;>
      simp only [generate_completion, generate_chat_completion, hc,
        if_true, hg]
  · intro resp hg hi hw
    constructor <;>
      simp only [generate_completion, generate_chat_completion, hc,
        if_true, hg, dispatchAfterMiss, hi, hw]

/-- C1 amended witness: the failing-write cache at the concrete
deterministic request surfaces the cache write error. -/
theorem dispatcher_propagates_cache_errors_witness :
    generate_completion (some failingWriteCache) cfg0 "anthropic"
        (fun _ => Except.ok resp0) () req0
      = (Except.error (ApiError.runtime "cache write failed"), 1) :=
  ((dispatcher_propagates_cache_errors failingWriteCache cfg0
      "anthropic" (fun _ => Except.ok resp0) () req0
      (ApiError.runtime "cache write failed") (by decide)).2 resp0
      rfl rfl rfl).1

/-- C5: dispatching the same cacheable request twice against the
persistent cache invokes the impl exactly once in total; the first
returned Response is the fresh one with `is_cached = false`, the
second is the cached copy with `is_cached = true` and identical
content. -/
theorem cache_round_trip (cfg : ProviderConfig) (p : String)
    (impl : AIRequestBase → Except ApiError AIResponse)
    (req : AIRequestBase) (resp : AIResponse)
    (hc : isCacheable cfg req = true)
    (hi : impl req = Except.ok resp)
    (hf : resp.is_cached = false) :
    generate_completion (some persistentCache) cfg p impl
        ([] : Store) req
      = (Except.ok (resp, [(req, p, resp)]), 1) ∧
    generate_completion (some persistentCache) cfg p impl
        [(req, p, resp)] req
      = (Except.ok ({ resp with is_cached := true }, [(req, p, resp)]),
          0) ∧
    resp.is_cached = false ∧
    ({ resp with is_cached := true } : AIResponse).is_cached = true ∧
    ({ resp with is_cached := true } : AIResponse).content
      = resp.content := by
  refine ⟨?_, ?_, hf, rfl, rfl⟩
  · simp only [generate_completion, hc, if_true, persistentCache,
      List.find?_nil, Option.map_none', dispatchAfterMiss, hi]
  · have hpred : (fun e : AIRequestBase × String × AIResponse =>
        decide (e.1 = req) && decide (e.2.1 = p)) (req, p, resp)
        = true := by simp
    have hfind : List.find?
        (fun e : AIRequestBase × String × AIResponse =>
          decide (e.1 = req) && decide (e.2.1 = p)) [(req, p, resp)]
        = some (req, p, resp) := List.find?_cons_of_pos _ hpred
    simp only [generate_completion, hc, if_true, persistentCache,
      hfind, Option.map_some']

/-- C5 witness: the round trip evaluated at the concrete deterministic
request and response. -/
theorem cache_round_trip_witness :
    generate_completion (some persistentCache) cfg0 "anthropic"
        (fun _ => Except.ok resp0) ([] : Store) req0
      = (Except.ok (resp0, [(req0, "anthropic", resp0)]), 1) ∧
    generate_completion (some persistentCache) cfg0 "anthropic"
        (fun _ => Except.ok resp0) [(req0, "anthropic", resp0)] req0
      = (Except.ok ({ resp0 with is_cached := true },
          [(req0, "anthropic", resp0)]), 0) :=
  have h := cache_round_trip cfg0 "anthropic"
    (fun _ => Except.ok resp0) req0 resp0 (by decide) rfl rfl
  ⟨h.1, h.2.1⟩

/-- C6: `_execute_tool` never raises — an unregistered name yields the
not-found result enumerating the registered names, a raising handler
yields a failure result carrying the error message, and a succeeding
handler yields a success result wrapping its return value verbatim;
concretely the registered calculator on `a = 5, b = 3` yields success
`8` and the unregistered name `missing` yields a result listing
`calculator`. -/
theorem execute_tool_spec :
    (∀ (st : ToolState) (name : String) (input : Params),
      st.handlers.find? (fun q => q.1 = name) = Option.none →
      execute_tool st name input
        = ToolResult.notFound ("Tool " ++ name ++ " not found")
            (st.handlers.map (fun q => q.1))) ∧
    (∀ (st : ToolState) (name : String) (input : Params)
      (entry : String × ToolHandler),
      st.handlers.find? (fun q => q.1 = name) = some entry →
      (∀ m, entry.2 input = Except.error m →
        execute_tool st name input = ToolResult.failure m) ∧
      (∀ r, entry.2 input = Except.ok r →
        execute_tool st name input = ToolResult.success r)) ∧
    execute_tool calculatorRegistry "calculator"
        [("operation", PyVal.str "add"), ("a", PyVal.int 5),
          ("b", PyVal.int 3)]
      = ToolResult.success (PyVal.int 8) ∧
    execute_tool calculatorRegistry "missing" []
      = ToolResult.notFound "Tool missing not found" ["calculator"] := by
  refine ⟨?_, ?_, rfl, rfl⟩
  · intro st name input h
    simp only [execute_tool, h, Option.map_none']
  · intro st name input entry h
    constructor
    · intro m hm
      simp only [execute_tool, h, Option.map_some', hm]
    · intro r hr
      simp only [execute_tool, h, Option.map_some', hr]

/-- C6 witness: executing on the empty registry reports not-found with
an empty listing, and a handler failure on the calculator registry is
converted to a failure result. -/
theorem execute_tool_spec_witness :
    execute_tool ToolState.empty "calculator" [] =
      ToolResult.notFound "Tool calculator not found" [] ∧
    execute_tool calculatorRegistry "calculator" [] =
      ToolResult.failure "missing argument" :=
  ⟨(execute_tool_spec.1 ToolState.empty "calculator" [] rfl).trans
      (by decide),
    (execute_tool_spec.2.1 calculatorRegistry "calculator" []
        ("calculator", calculatorHandler) rfl).1 "missing argument" rfl⟩

/-- C2 counterexample: with every attempt rate-limited, the caller of
`_create_message_with_tools` receives a synthetic `ValueError` wrapper,
not the rate-limit error itself. -/
theorem create_message_wraps_transient_counterexample :
    createMessageWithTools (some "key") "claude-sonnet-4-5" cfg0
        (fun _ _ => Except.error (ApiError.rateLimit "rate limited"))
        [] Option.none (PyVal.int 4096) (PyVal.rat (7 / 10))
        Option.none Option.none PyVal.none
      = Except.error (ApiError.valueError
          "Anthropic API error: rate limited") ∧
    createMessageWithTools (some "key") "claude-sonnet-4-5" cfg0
        (fun _ _ => Except.error (ApiError.rateLimit "rate limited"))
        [] Option.none (PyVal.int 4096) (PyVal.rat (7 / 10))
        Option.none Option.none PyVal.none
      ≠ Except.error (ApiError.rateLimit "rate limited") := by
  constructor
  · rfl
  · intro h
    have h' : (Except.error (ApiError.valueError
        "Anthropic API error: rate limited") :
        Except ApiError RemoteMessage)
        = Except.error (ApiError.rateLimit "rate limited") := h
    injection h' with h''
    exact ApiError.noConfusion h''

/-- C2 amended: `_retry_with_backoff` itself surfaces the last
transient error unchanged in kind, but `_create_message_with_tools`
wraps whatever escapes the retry loop — an `APIStatusError`-class
error (including rate-limit) becomes a `ValueError` wrapper and any
other (timeout, connection) a generic `Exception` wrapper — so the
caller of the generation path never receives the transient error
itself. -/
theorem transient_errors_wrapped (apiKey : Option String)
    (modelId : String) (cfg : ProviderConfig)
    (remote : MessageRequestParams → Nat → Except ApiError RemoteMessage)
    (messages : List FMsg) (model : Option String) (max_tokens : PyVal)
    (temperature : PyVal) (system : Option String)
    (tools : Option (List Params)) (thinking : PyVal)
    (errAt : Nat → ApiError)
    (hkey : (apiKey.filter (fun s => s ≠ "")).isNone = false)
    (h1 : 1 ≤ cfg.max_retries)
    (hfail : ∀ ps i, i < cfg.max_retries →
      remote ps i = Except.error (errAt i) ∧
      isRetryable (errAt i) = true) :
    (retryWithBackoff
        (remote (buildMessageParams modelId cfg messages model
          max_tokens temperature system tools thinking))
        cfg.max_retries).1
      = RetryOutcome.err (errAt (cfg.max_retries - 1)) ∧
    createMessageWithTools apiKey modelId cfg remote messages model
        max_tokens temperature system tools thinking
      = Except.error
          (if isAPIStatusError (errAt (cfg.max_retries - 1)) then
            ApiError.valueError ("Anthropic API error: "
              ++ (errAt (cfg.max_retries - 1)).message)
          else
            ApiError.runtime ("Failed to call Anthropic API: "
              ++ (errAt (cfg.max_retries - 1)).message)) ∧
    (∀ e', createMessageWithTools apiKey modelId cfg remote messages
        model max_tokens temperature system tools thinking
        = Except.error e' → isRetryable e' = false) := by
  have hret := retryGo_exhausts
    (remote (buildMessageParams modelId cfg messages model max_tokens
      temperature system tools thinking)) errAt cfg.max_retries 0
    Option.none (by omega)
    (fun i hi => by simpa using hfail _ i hi)
  rw [show (0 : Nat) + cfg.max_retries - 1 = cfg.max_retries - 1 from
    by omega] at hret
  have h2 : createMessageWithTools apiKey modelId cfg remote messages
      model max_tokens temperature system tools thinking
      = Except.error
          (if isAPIStatusError (errAt (cfg.max_retries - 1)) then
            ApiError.valueError ("Anthropic API error: "
              ++ (errAt (cfg.max_retries - 1)).message)
          else
            ApiError.runtime ("Failed to call Anthropic API: "
              ++ (errAt (cfg.max_retries - 1)).message)) := by
    rw [createMessageWithTools, hkey]
    simp only [Bool.false_eq_true, if_false, retryWithBackoff, hret]
    split <;> rfl
  refine ⟨by rw [retryWithBackoff, hret], h2, ?_⟩
  intro e' he'
  rw [h2] at he'
  injection he' with h''
  subst h''
  rcases h : isAPIStatusError (errAt (cfg.max_retries - 1)) <;>
    simp [h, isRetryable]

/-- C2 amended witness: three rate-limited attempts at a concrete
call surface the `ValueError` wrapper. -/
theorem transient_errors_wrapped_witness :
    createMessageWithTools (some "k") "m" cfg0
        (fun _ _ => Except.error (ApiError.rateLimit "429")) []
        Option.none (PyVal.int 4096) (PyVal.rat (7 / 10)) Option.none
        Option.none PyVal.none
      = Except.error (ApiError.valueError "Anthropic API error: 429") :=
  ((transient_errors_wrapped (some "k") "m" cfg0
      (fun _ _ => Except.error (ApiError.rateLimit "429")) []
      Option.none (PyVal.int 4096) (PyVal.rat (7 / 10)) Option.none
      Option.none PyVal.none (fun _ => ApiError.rateLimit "429")
      (by decide) (by decide)
      (fun _ i _ => ⟨rfl, rfl⟩)).2.1).trans (by rfl)

/-- C8: every `AIResponse` produced by the generation impls satisfies
`total_tokens = prompt_tokens + completion_tokens`, both in the
top-level counters and in the usage map — the total is recomputed from
the two parts of the remote reply. -/
theorem usage_total_invariant (apiKey : Option String)
    (modelId : String) (cfg : ProviderConfig)
    (remote : MessageRequestParams → Nat → Except ApiError RemoteMessage)
    (req : AIRequestBase) (resp : AIResponse) :
    (generateCompletionImpl apiKey modelId cfg remote req
        = Except.ok resp →
      resp.total_tokens = resp.prompt_tokens + resp.completion_tokens ∧
      resp.usage_total_tokens
        = resp.usage_prompt_tokens + resp.usage_completion_tokens) ∧
    (generateChatCompletionImpl apiKey modelId cfg remote req
        = Except.ok resp →
      resp.total_tokens = resp.prompt_tokens + resp.completion_tokens ∧
      resp.usage_total_tokens
        = resp.usage_prompt_tokens + resp.usage_completion_tokens) := by
  constructor
  · intro h
    unfold generateCompletionImpl at h
    cases hcm : createMessageWithTools apiKey modelId cfg remote
        [{ role := "user", content := req.prompt }] Option.none
        (resolvedMaxTokens cfg req) (resolvedTemperature cfg req)
        Option.none Option.none (resolvedThinking req) with
    | error e => rw [hcm] at h; cases h
    | ok m =>
        rw [hcm] at h
        injection h with h'
        subst h'
        exact ⟨rfl, rfl⟩
  · intro h
    unfold generateChatCompletionImpl at h
    cases hcm : createMessageWithTools apiKey modelId cfg remote
        (formatMessages req) Option.none
        (resolvedMaxTokens cfg req) (resolvedTemperature cfg req)
        (extractSystemMessage req) Option.none (resolvedThinking req) with
    | error e => rw [hcm] at h; cases h
    | ok m =>
        rw [hcm] at h
        injection h with h'
        subst h'
        exact ⟨rfl, rfl⟩

/-- C8 witness: the invariant evaluated on the response built from a
concrete remote reply with 3 input and 4 output tokens. -/
theorem usage_total_invariant_witness :
    (mkAIResponse "m" msg0).total_tokens
      = (mkAIResponse "m" msg0).prompt_tokens
        + (mkAIResponse "m" msg0).completion_tokens ∧
    (mkAIResponse "m" msg0).usage_total_tokens
      = (mkAIResponse "m" msg0).usage_prompt_tokens
        + (mkAIResponse "m" msg0).usage_completion_tokens :=
  (usage_total_invariant (some "k") "m" cfg0
      (fun _ _ => Except.ok msg0) req0 (mkAIResponse "m" msg0)).1 rfl

lemma pyOr_pyOr_self (a b : PyVal) : pyOr (pyOr a b) b = pyOr a b := by
  unfold pyOr
  rcases h : pyTruthy a
  · simp only [Bool.false_eq_true, if_false, ite_self]
  · simp only [if_true, h]

lemma resolvedTemperature_ne_none (cfg : ProviderConfig)
    (req : AIRequestBase) : resolvedTemperature cfg req ≠ PyVal.none := by
  unfold resolvedTemperature
  split
  · cases cfg.temperature <;> simp
  · assumption

/-- C7 counterexample: a request carrying the explicit per-request
value `max_tokens = 0` does not have that value sent to the remote
call — the falsy `0` falls through `or` to the hard-coded default
4096. -/
theorem max_tokens_resolution_counterexample :
    reqParamGet reqMaxTokensZero "max_tokens" = PyVal.int 0 ∧
    resolvedMaxTokens cfg0 reqMaxTokensZero = PyVal.int 4096 ∧
    (buildMessageParams "m" cfg0 [] Option.none
        (resolvedMaxTokens cfg0 reqMaxTokensZero)
        (resolvedTemperature cfg0 reqMaxTokensZero) Option.none
        Option.none PyVal.none).max_tokens = PyVal.int 4096 ∧
    PyVal.int 4096 ≠ PyVal.int 0 := by decide

/-- C7 amended: the effective max-token bound is the explicit
per-request value only when that value is truthy — a present but falsy
value (`0` or `None`) falls through to the provider config default,
else the hard-coded 4096; the effective temperature is the explicit
per-request value whenever it is not `None` (including `0`), else the
config default, else the hard-coded 0.7; the values so resolved pass
through `_create_message_with_tools` to the remote call unchanged. -/
theorem parameter_resolution_spec (cfg : ProviderConfig)
    (req : AIRequestBase) (modelId : String) (messages : List FMsg)
    (model : Option String) (system : Option String)
    (tools : Option (List Params)) (thinking : PyVal) :
    (pyTruthy (reqParamGet req "max_tokens") = true →
      resolvedMaxTokens cfg req = reqParamGet req "max_tokens") ∧
    (pyTruthy (reqParamGet req "max_tokens") = false →
      resolvedMaxTokens cfg req = cfgMaxTokensGet cfg ∧
      (cfg.max_tokens = Option.none →
        resolvedMaxTokens cfg req = PyVal.int 4096)) ∧
    (reqParamGet req "temperature" ≠ PyVal.none →
      resolvedTemperature cfg req = reqParamGet req "temperature") ∧
    (reqParamGet req "temperature" = PyVal.none →
      (∀ q, cfg.temperature = some q →
        resolvedTemperature cfg req = PyVal.rat q) ∧
      (cfg.temperature = Option.none →
        resolvedTemperature cfg req = PyVal.rat (7 / 10))) ∧
    (buildMessageParams modelId cfg messages model
        (resolvedMaxTokens cfg req) (resolvedTemperature cfg req)
        system tools thinking).max_tokens
      = resolvedMaxTokens cfg req ∧
    (buildMessageParams modelId cfg messages model
        (resolvedMaxTokens cfg req) (resolvedTemperature cfg req)
        system tools thinking).temperature
      = some (resolvedTemperature cfg req) := by
  refine ⟨?_, ?_, ?_, ?_, ?_, ?_⟩
  · intro h
    simp only [resolvedMaxTokens, pyOr, h, if_true]
  · intro h
    constructor
    · simp only [resolvedMaxTokens, pyOr, h, Bool.false_eq_true,
        if_false]
    · intro hn
      simp only [resolvedMaxTokens, pyOr, h, Bool.false_eq_true,
        if_false, cfgMaxTokensGet, hn]
  · intro h
    simp only [resolvedTemperature, if_neg h]
  · intro h
    constructor
    · intro q hq
      simp only [resolvedTemperature, if_pos h, hq]
    · intro hn
      simp only [resolvedTemperature, if_pos h, hn]
  · simp only [buildMessageParams, resolvedMaxTokens, pyOr_pyOr_self]
  · simp only [buildMessageParams, paramsTemperature,
      if_neg (resolvedTemperature_ne_none cfg req)]

/-- C7 amended witness: a request with truthy `max_tokens = 100` and
explicit `temperature = 0` has both values used and passed through. -/
theorem parameter_resolution_spec_witness :
    resolvedMaxTokens cfg0 reqExplicitParams
      = reqParamGet reqExplicitParams "max_tokens" ∧
    resolvedTemperature cfg0 reqExplicitParams
      = reqParamGet reqExplicitParams "temperature" ∧
    (buildMessageParams "m" cfg0 [] Option.none
        (resolvedMaxTokens cfg0 reqExplicitParams)
        (resolvedTemperature cfg0 reqExplicitParams) Option.none
        Option.none PyVal.none).max_tokens
      = resolvedMaxTokens cfg0 reqExplicitParams :=
  have h := parameter_resolution_spec cfg0 reqExplicitParams "m" []
    Option.none Option.none Option.none PyVal.none
  ⟨h.1 (by decide), h.2.2.1 (by decide), h.2.2.2.2.1⟩

lemma formatMsg_of_not_system (m : Msg) (h : isSystemTagged m = false) :
    formatMsg m
      = some { role := normalizeRole m.roleGet,
               content := some m.contentGet } := by
  have h' : ¬ (m.roleGet = "system") := by
    simpa [isSystemTagged] using h
  simp only [formatMsg, normalizeRole, if_neg h']

lemma formatMsg_of_system (m : Msg) (h : isSystemTagged m = true) :
    formatMsg m = Option.none := by
  have h' : m.roleGet = "system" := by
    simpa [isSystemTagged] using h
  simp only [formatMsg, if_pos h']

lemma filterMap_formatMsg (msgs : List Msg) :
    msgs.filterMap formatMsg
      = (msgs.filter (fun m => !isSystemTagged m)).map (fun m =>
          { role := normalizeRole m.roleGet,
            content := some m.contentGet }) := by
  induction msgs with
  | nil => rfl
  | cons m ms ih =>
      rcases h : isSystemTagged m
      · rw [List.filterMap_cons, formatMsg_of_not_system m h,
          List.filter_cons]
        simp only [h, Bool.not_false, if_true, List.map_cons, ih]
      · rw [List.filterMap_cons, formatMsg_of_system m h,
          List.filter_cons]
        simp only [h, Bool.not_true, Bool.false_eq_true, if_false, ih]

lemma find?_system_pred (msgs : List Msg) :
    msgs.find? (fun m => m.role = some "system")
      = msgs.find? (fun m => isSystemTagged m) := by
  congr 1
  funext m
  rcases hr : m.role with _ | r <;>
    simp [isSystemTagged, Msg.roleGet, hr]

/-- C9: for a request with a non-empty message list, the
provider-facing messages are exactly the non-system messages in their
original order with normalized roles and content unchanged, and the
extracted system prompt is the content of the first system-tagged
message; with no (or an empty) message list a single user message is
synthesized from the bare prompt; concretely
`[system S, user A, assistant B]` formats to `[user A, assistant B]`
with system prompt `S`. -/
theorem message_formatting_spec :
    (∀ (req : AIRequestBase) (msgs : List Msg),
      req.messages = some msgs → msgs ≠ [] →
      formatMessages req
        = (msgs.filter (fun m => !isSystemTagged m)).map (fun m =>
            { role := normalizeRole m.roleGet,
              content := some m.contentGet }) ∧
      extractSystemMessage req
        = (msgs.find? (fun m => isSystemTagged m)).map
            Msg.contentGet) ∧
    (∀ req : AIRequestBase,
      req.messages = Option.none ∨ req.messages = some [] →
      formatMessages req = [{ role := "user", content := req.prompt }]) ∧
    formatMessages exChatReq
      = [{ role := "user", content := some "A" },
          { role := "assistant", content := some "B" }] ∧
    extractSystemMessage exChatReq = some "S" := by
  refine ⟨?_, ?_, rfl, rfl⟩
  · intro req msgs hm hne
    have hemp : msgs.isEmpty = false := by
      cases msgs with
      | nil => exact absurd rfl hne
      | cons a l => rfl
    constructor
    · simp only [formatMessages, hm, hemp, Bool.false_eq_true,
        if_false, filterMap_formatMsg]
    · simp only [extractSystemMessage, hm, hemp, Bool.false_eq_true,
        if_false, find?_system_pred]
  · intro req h
    rcases h with h | h <;> simp [formatMessages, h]

/-- C9 witness: the formatting equalities evaluated at the concrete
example request. -/
theorem message_formatting_spec_witness :
    formatMessages exChatReq
      = (exChatMsgs.filter (fun m => !isSystemTagged m)).map (fun m =>
          { role := normalizeRole m.roleGet,
            content := some m.contentGet }) ∧
    extractSystemMessage exChatReq
      = (exChatMsgs.find? (fun m => isSystemTagged m)).map
          Msg.contentGet :=
  message_formatting_spec.1 exChatReq exChatMsgs rfl (by decide)

lemma orFalseSplit {a b : Bool} (h : (a || b) = false) :
    a = false ∧ b = false := by
  rcases a <;> rcases b <;> simp_all

lemma containsKey_cons (p : String × PyVal) (ps : Params) (k : String) :
    containsKey (p :: ps) k = (decide (p.1 = k) || containsKey ps k) :=
  rfl

lemma containsKey_mapUpdate_false (ps : Params) (k₁ k : String)
    (v₁ : PyVal) (h1 : k₁ ≠ k) (h2 : containsKey ps k = false) :
    containsKey (ps.map (fun p => if p.1 = k₁ then (k₁, v₁) else p)) k
      = false := by
  induction ps with
  | nil => rfl
  | cons p ps ih =>
      rw [List.map_cons, containsKey_cons]
      rw [containsKey_cons] at h2
      obtain ⟨hp, hps⟩ := orFalseSplit h2
      rw [ih hps]
      by_cases hpk : p.1 = k₁
      · rw [if_pos hpk]
        simp [h1]
      · rw [if_neg hpk]
        simp [hp]

lemma containsKey_dictInsert_false (ps : Params) (k₁ k : String)
    (v₁ : PyVal) (h1 : k₁ ≠ k) (h2 : containsKey ps k = false) :
    containsKey (dictInsert ps k₁ v₁) k = false := by
  unfold dictInsert
  by_cases hc : containsKey ps k₁ = true
  · rw [if_pos hc]
    exact containsKey_mapUpdate_false ps k₁ k v₁ h1 h2
  · rw [if_neg hc]
    rw [show ps ++ [(k₁, v₁)] = ps ++ [(k₁, v₁)] from rfl,
      containsKey, List.any_append]
    have : containsKey ps k = false := h2
    rw [containsKey] at this
    rw [this]
    simp [h1]

lemma containsKey_dictMerge_false (kwargs : Params) (k : String) :
    ∀ ps : Params, containsKey kwargs k = false →
      containsKey ps k = false →
      containsKey (dictMerge ps kwargs) k = false := by
  induction kwargs with
  | nil => intro ps _ h2; exact h2
  | cons q kw ih =>
      intro ps h1 h2
      rw [containsKey_cons] at h1
      obtain ⟨hq, hkw⟩ := orFalseSplit h1
      exact ih (dictInsert ps q.1 q.2) hkw
        (containsKey_dictInsert_false ps q.1 k q.2
          (of_decide_eq_false hq) h2)

lemma lookupParam_cons_of_ne (p : String × PyVal) (ps : Params)
    (k : String) (h : p.1 ≠ k) :
    lookupParam (p :: ps) k = lookupParam ps k := by
  unfold lookupParam
  rw [List.find?_cons]
  simp [h]

lemma lookupParam_cons_of_eq (p : String × PyVal) (ps : Params)
    (k : String) (h : p.1 = k) :
    lookupParam (p :: ps) k = some p.2 := by
  unfold lookupParam
  rw [List.find?_cons]
  simp [h]

lemma lookupParam_mapUpdate_ne (ps : Params) (k₁ k : String)
    (v₁ : PyVal) (h : k₁ ≠ k) :
    lookupParam (ps.map (fun p => if p.1 = k₁ then (k₁, v₁) else p)) k
      = lookupParam ps k := by
  induction ps with
  | nil => rfl
  | cons p ps ih =>
      rw [List.map_cons]
      by_cases hpk : p.1 = k₁
      · rw [if_pos hpk, lookupParam_cons_of_ne _ _ _ h, ih,
          lookupParam_cons_of_ne p ps k
            (fun hh => h (hpk.symm.trans hh))]
      · rw [if_neg hpk]
        by_cases hpk2 : p.1 = k
        · rw [lookupParam_cons_of_eq _ _ _ hpk2,
            lookupParam_cons_of_eq _ _ _ hpk2]
        · rw [lookupParam_cons_of_ne _ _ _ hpk2,
            lookupParam_cons_of_ne _ _ _ hpk2, ih]

lemma lookupParam_append_singleton_ne (ps : Params) (k₁ k : String)
    (v₁ : PyVal) (h : k₁ ≠ k) :
    lookupParam (ps ++ [(k₁, v₁)]) k = lookupParam ps k := by
  induction ps with
  | nil =>
      show lookupParam [(k₁, v₁)] k = lookupParam [] k
      rw [lookupParam_cons_of_ne _ _ _ h]
  | cons p ps ih =>
      rw [List.cons_append]
      by_cases hpk : p.1 = k
      · rw [lookupParam_cons_of_eq _ _ _ hpk,
          lookupParam_cons_of_eq _ _ _ hpk]
      · rw [lookupParam_cons_of_ne _ _ _ hpk,
          lookupParam_cons_of_ne _ _ _ hpk, ih]

lemma lookupParam_dictInsert_ne (ps : Params) (k₁ k : String)
    (v₁ : PyVal) (h : k₁ ≠ k) :
    lookupParam (dictInsert ps k₁ v₁) k = lookupParam ps k := by
  unfold dictInsert
  by_cases hc : containsKey ps k₁ = true
  · rw [if_pos hc]
    exact lookupParam_mapUpdate_ne ps k₁ k v₁ h
  · rw [if_neg hc]
    exact lookupParam_append_singleton_ne ps k₁ k v₁ h

lemma lookupParam_dictMerge_not_mem (kwargs : Params) (k : String) :
    ∀ ps : Params, containsKey kwargs k = false →
      lookupParam (dictMerge ps kwargs) k = lookupParam ps k := by
  induction kwargs with
  | nil => intro ps _; rfl
  | cons q kw ih =>
      intro ps h1
      rw [containsKey_cons] at h1
      obtain ⟨hq, hkw⟩ := orFalseSplit h1
      exact (ih (dictInsert ps q.1 q.2) hkw).trans
        (lookupParam_dictInsert_ne ps q.1 k q.2 (of_decide_eq_false hq))

/-- C10: every request built by the convenience method `generate` is
cache-eligible for every temperature value, including positive ones —
the temperature is stored under `"temperature"` in the
additional-parameter map (a key `_is_cacheable` does not inspect)
while the request's `temperature` field stays `None` — provided the
extra keyword arguments carry none of the keys `stream`, `user`,
`request_id` and the provider config does not disable caching.
(Python call semantics keep `max_tokens` and `temperature` out of
`kwargs`, since they are named parameters of `generate`.) -/
theorem generate_requests_always_cacheable (cfg : ProviderConfig)
    (prompt : String) (mt : Option Int) (temperature : Rat)
    (kwargs : Params)
    (hdc : cfg.disable_caching = false)
    (hs : containsKey kwargs "stream" = false)
    (hu : containsKey kwargs "user" = false)
    (hr : containsKey kwargs "request_id" = false)
    (ht : containsKey kwargs "temperature" = false) :
    isCacheable cfg (generateRequest prompt mt temperature kwargs)
      = true ∧
    (generateRequest prompt mt temperature kwargs).temperature
      = Option.none ∧
    (∃ ps, (generateRequest prompt mt temperature kwargs).additional_params
        = some ps ∧
      lookupParam ps "temperature" = some (PyVal.rat temperature)) := by
  refine ⟨?_, rfl, ?_⟩
  · have c1 := containsKey_dictMerge_false kwargs "stream"
      (generateBaseParams mt temperature) hs rfl
    have c2 := containsKey_dictMerge_false kwargs "user"
      (generateBaseParams mt temperature) hu rfl
    have c3 := containsKey_dictMerge_false kwargs "request_id"
      (generateBaseParams mt temperature) hr rfl
    have hpb : paramsBlockCaching
        (generateRequest prompt mt temperature kwargs).additional_params
        = false := by
      show paramsBlockCaching
        (some (dictMerge (generateBaseParams mt temperature) kwargs))
        = false
      rw [show paramsBlockCaching
          (some (dictMerge (generateBaseParams mt temperature) kwargs))
          = ((!(dictMerge (generateBaseParams mt temperature)
              kwargs).isEmpty) &&
            (containsKey (dictMerge (generateBaseParams mt temperature)
                kwargs) "stream" ||
              containsKey (dictMerge (generateBaseParams mt temperature)
                kwargs) "user" ||
              containsKey (dictMerge (generateBaseParams mt temperature)
                kwargs) "request_id")) from rfl, c1, c2, c3]
      simp
    have htb : temperatureBlocksCaching
        (generateRequest prompt mt temperature kwargs).temperature
        = false := rfl
    simp [isCacheable, htb, hpb, hdc]
  · refine ⟨_, rfl, ?_⟩
    exact (lookupParam_dictMerge_not_mem kwargs "temperature"
        (generateBaseParams mt temperature) ht).trans
      ((lookupParam_cons_of_ne _ _ _
          (show ("max_tokens" : String) ≠ "temperature" from by
            decide)).trans
        (lookupParam_cons_of_eq _ _ _ rfl))

/-- C10 witness: a `generate`-style request with positive temperature 1
and a harmless extra keyword argument is cacheable, its `temperature`
field is `None`, and the map holds the temperature. -/
theorem generate_requests_always_cacheable_witness :
    isCacheable cfg0
        (generateRequest "p" Option.none 1 [("foo", PyVal.int 1)])
      = true ∧
    (generateRequest "p" Option.none 1
        [("foo", PyVal.int 1)]).temperature = Option.none :=
  have h := generate_requests_always_cacheable cfg0 "p" Option.none 1
    [("foo", PyVal.int 1)] rfl rfl rfl rfl rfl
  ⟨h.1, h.2.1⟩

end AINativeProviders
